import Mathlib

/-!
# Verification of the data-analysis assistant core

Shallow embedding of the core of the repository (a Streamlit data-analysis
assistant): the query orchestrator `DataAnalysisAgent` in
`utils/ai_agent.py` (prompt construction, JSON reply parsing with salvage
extraction, data-consistency validation) and the response renderer
`DataVisualizer` in `utils/visualizer.py` (tag dispatch and per-tag
structural checks).

Python values flowing through the parser/validator/renderer are modelled by
the `Json` inductive; Python exceptions are modelled by `Except String`
(the string carries the fault description). Machine floats never decide any
verified property; float-typed dataset columns and float formatting in
display-only strings (`describe()` statistics, pie percentages) are outside
the embedding and noted at the definitions that would touch them.
-/

set_option maxHeartbeats 1600000
set_option maxRecDepth 4000

/-- A Python value as it occurs in this program after `json.loads`:
`None`, `bool`, `int`, `str`, `list`, `dict` (JSON float literals are
rejected by the embedded parser; no claim involves them). -/
inductive Json where
  | null : Json
  | bool (b : Bool) : Json
  | num (n : Int) : Json
  | str (s : String) : Json
  | arr (elts : List Json) : Json
  | obj (fields : List (String × Json)) : Json
  deriving Repr, BEq, Inhabited

/-- First-match association lookup; the Python `dict`s here come from
`json.loads`, whose key insertion (`insKey` below) keeps keys unique, so
first match is exact dict lookup. -/
def alookup : List (String × Json) → String → Option Json
  | [], _ => none
  | (k0, v0) :: rest, k => if k0 = k then some v0 else alookup rest k

/-- Python dict item assignment `d[k] = v`: replace in place if the key
exists (keeping its position), else append. -/
def insKey : List (String × Json) → String → Json → List (String × Json)
  | [], k, v => [(k, v)]
  | (k0, v0) :: rest, k, v =>
    if k0 = k then (k0, v) :: rest else (k0, v0) :: insKey rest k v

/-- Bool substring test, `needle in hay` for Python strings. -/
def strContains (hay needle : String) : Bool :=
  hay.data.tails.any (fun t => List.isPrefixOf needle.data t)

/-- Python truthiness `bool(x)` for the values modelled here. -/
def Json.pyTruthy : Json → Bool
  | .null => false
  | .bool b => b
  | .num n => n != 0
  | .str s => s != ""
  | .arr xs => !xs.isEmpty
  | .obj fs => !fs.isEmpty

/-- Python `k in x` for a string `k`: dict key test, list membership,
substring test on strings; `TypeError` on the non-container values. -/
def pyContains (k : String) : Json → Except String Bool
  | .obj fs => .ok (alookup fs k).isSome
  | .arr xs => .ok (xs.any (fun x => x == Json.str k))
  | .str s => .ok (strContains s k)
  | _ => .error ("TypeError: argument of type is not iterable")

/-- Python subscript `x[k]` for a string key `k`: dict lookup
(`KeyError` when absent), `TypeError` on every other value. -/
def getItem (j : Json) (k : String) : Except String Json :=
  match j with
  | .obj fs =>
    match alookup fs k with
    | some v => .ok v
    | none => .error ("KeyError: " ++ k)
  | _ => .error "TypeError: value is not subscriptable by str"

/-- Python `x.get(k, default)`: only dicts have `.get`;
`AttributeError` otherwise. -/
def pyGet (j : Json) (k : String) (dflt : Json) : Except String Json :=
  match j with
  | .obj fs => .ok ((alookup fs k).getD dflt)
  | _ => .error "AttributeError: object has no attribute get"

/-- Python `len(x)`: strings, lists and dicts are sized;
`TypeError` otherwise. -/
def pyLen : Json → Except String Nat
  | .str s => .ok s.length
  | .arr xs => .ok xs.length
  | .obj fs => .ok fs.length
  | _ => .error "TypeError: object has no len"

/-- Python `repr` restricted to the values modelled here (strings are
shown with U+0027 quotes and without escape processing: only display
strings ever pass through this). -/
def Json.pyRepr : Json → String
  | .null => "None"
  | .bool b => if b then "True" else "False"
  | .num n => toString n
  | .str s => "\x27" ++ s ++ "\x27"
  | .arr xs =>
    "[" ++ String.intercalate ", " (xs.attach.map (fun x => x.1.pyRepr)) ++ "]"
  | .obj fs =>
    "\x7b" ++
      String.intercalate ", "
        (fs.attach.map
          (fun p => "\x27" ++ p.1.1 ++ "\x27: " ++ p.1.2.pyRepr)) ++
    "\x7d"
decreasing_by
  · have := List.sizeOf_lt_of_mem x.2
    simp only [Json.arr.sizeOf_spec]
    omega
  · have h1 := List.sizeOf_lt_of_mem p.2
    have h2 : sizeOf p.1.2 < sizeOf p.1 := by
      cases p.1 with
      | mk a b => simp
    simp only [Json.obj.sizeOf_spec]
    omega

/-- Python `str(x)` as used in the f-strings of the renderer. -/
def Json.pyStr : Json → String
  | .str s => s
  | v => v.pyRepr

/-- The ASCII whitespace stripped by Python `str.strip()` (Unicode-only
whitespace code points are outside the inputs modelled here). -/
def pyWs (c : Char) : Bool :=
  c = ' ' || c = '\t' || c = '\n' || c = '\r' ||
  c = Char.ofNat 11 || c = Char.ofNat 12

/-- Python `s.strip()`. -/
def pyStrip (s : String) : String :=
  String.mk (((s.data.dropWhile pyWs).reverse.dropWhile pyWs).reverse)

/-! ## `json.loads` (CPython `json` module, restricted)

Recursive-descent parser mirroring the JSON grammar that `json.loads`
accepts, over `List Char` with a fuel argument for termination. Restrictions
of the embedding, none of which any claim touches: float literals
(fraction/exponent), the non-standard `Infinity`/`NaN` constants and
`\uXXXX` string escapes are rejected instead of parsed, and the error
strings are short descriptions rather than CPython's exact
`JSONDecodeError` messages (no verified property inspects the message
text). Duplicate object keys follow dict assignment (`insKey`): the last
value wins, the first position is kept. -/

def lbrace : Char := Char.ofNat 123

def rbrace : Char := Char.ofNat 125

/-- The whitespace the JSON grammar allows between tokens. -/
def jsonWsChar (c : Char) : Bool :=
  c = ' ' || c = '\t' || c = '\n' || c = '\r'

def skipJsonWs : List Char → List Char
  | [] => []
  | c :: cs => if jsonWsChar c then skipJsonWs cs else c :: cs

/-- Body of a double-quoted JSON string, after the opening quote;
returns the decoded string and the input after the closing quote. -/
def parseStrBody : List Char → List Char → Except String (String × List Char)
  | [], _ => .error "Unterminated string"
  | c :: cs, acc =>
    if c = '"' then .ok (String.mk acc.reverse, cs)
    else if c = '\\' then
      match cs with
      | [] => .error "Unterminated string"
      | e :: cs2 =>
        let ec :=
          if e = 'n' then '\n'
          else if e = 't' then '\t'
          else if e = 'r' then '\r'
          else if e = 'b' then Char.ofNat 8
          else if e = 'f' then Char.ofNat 12
          else e
        parseStrBody cs2 (ec :: acc)
    else parseStrBody cs (c :: acc)

def digitsVal (ds : List Char) : Nat :=
  ds.foldl (fun acc c => acc * 10 + (c.toNat - 48)) 0

/-- A JSON integer literal (`-?(0|[1-9][0-9]*)`); a following `.`, `e` or
`E` would start a float literal, which the embedding rejects. -/
def parseNum (cs : List Char) : Except String (Json × List Char) :=
  let p : Bool × List Char :=
    match cs with
    | c :: rest => if c = '-' then (true, rest) else (false, cs)
    | [] => (false, cs)
  match p.2 with
  | [] => .error "Expecting value"
  | d :: rest =>
    if !d.isDigit then .error "Expecting value"
    else
      let q : List Char × List Char :=
        if d = '0' then ([d], rest)
        else List.span Char.isDigit (d :: rest)
      let next : List Char := q.2
      let bad : Bool :=
        match next with
        | c :: _ => c = '.' || c = 'e' || c = 'E'
        | [] => false
      if bad then .error "float literals are outside this embedding"
      else
        let v : Int := Int.ofNat (digitsVal q.1)
        .ok (.num (if p.1 then -v else v), next)

/-- Expect a literal keyword tail (for `true` / `false` / `null`). -/
def expectLit (lit : List Char) (cs : List Char) (v : Json) :
    Except String (Json × List Char) :=
  if List.isPrefixOf lit cs then .ok (v, cs.drop lit.length)
  else .error "Expecting value"

mutual

/-- One JSON value, leading whitespace allowed; returns the value and the
remaining input. -/
def parseVal : Nat → List Char → Except String (Json × List Char)
  | 0, _ => .error "fuel exhausted"
  | f + 1, cs =>
    match skipJsonWs cs with
    | [] => .error "Expecting value"
    | c :: rest =>
      if c = lbrace then
        match skipJsonWs rest with
        | c2 :: rest2 =>
          if c2 = rbrace then .ok (.obj [], rest2)
          else parseMembers f (c2 :: rest2) []
        | [] => .error "Expecting property name"
      else if c = '[' then
        match skipJsonWs rest with
        | c2 :: rest2 =>
          if c2 = ']' then .ok (.arr [], rest2)
          else parseElems f (c2 :: rest2) []
        | [] => .error "Expecting value"
      else if c = '"' then
        match parseStrBody rest [] with
        | .error e => .error e
        | .ok (s, r) => .ok (.str s, r)
      else if c = 't' then expectLit ['r', 'u', 'e'] rest (.bool true)
      else if c = 'f' then expectLit ['a', 'l', 's', 'e'] rest (.bool false)
      else if c = 'n' then expectLit ['u', 'l', 'l'] rest .null
      else if c = '-' || c.isDigit then parseNum (c :: rest)
      else .error "Expecting value"

/-- Members of an object after `{`, positioned at the start of a key. -/
def parseMembers : Nat → List Char → List (String × Json) →
    Except String (Json × List Char)
  | 0, _, _ => .error "fuel exhausted"
  | f + 1, cs, acc =>
    match cs with
    | [] => .error "Expecting property name"
    | c :: rest =>
      if c = '"' then
        match parseStrBody rest [] with
        | .error e => .error e
        | .ok (key, r1) =>
          match skipJsonWs r1 with
          | [] => .error "Expecting colon delimiter"
          | c2 :: r2 =>
            if c2 = ':' then
              match parseVal f r2 with
              | .error e => .error e
              | .ok (v, r3) =>
                match skipJsonWs r3 with
                | [] => .error "Expecting comma delimiter"
                | c3 :: r4 =>
                  if c3 = ',' then
                    parseMembers f (skipJsonWs r4) (insKey acc key v)
                  else if c3 = rbrace then .ok (.obj (insKey acc key v), r4)
                  else .error "Expecting comma delimiter"
            else .error "Expecting colon delimiter"
      else .error "Expecting property name"

/-- Elements of an array after `[`, positioned at the first element. -/
def parseElems : Nat → List Char → List Json →
    Except String (Json × List Char)
  | 0, _, _ => .error "fuel exhausted"
  | f + 1, cs, acc =>
    match parseVal f cs with
    | .error e => .error e
    | .ok (v, r1) =>
      match skipJsonWs r1 with
      | [] => .error "Expecting comma delimiter"
      | c :: r2 =>
        if c = ',' then parseElems f r2 (v :: acc)
        else if c = ']' then .ok (.arr (v :: acc).reverse, r2)
        else .error "Expecting comma delimiter"

end

/-- `json.loads`: one value, then only trailing whitespace. -/
def json_loads (s : String) : Except String Json :=
  match parseVal (s.length + 8) s.data with
  | .error e => .error e
  | .ok (v, rest) =>
    if skipJsonWs rest = [] then .ok v else .error "Extra data"

/-! ## Salvage extraction (`DataAnalysisAgent._extract_json_from_text`)

The source scans the reply with two regex patterns in order —
`r'\x7b[^\x7b\x7d]*\x7d'` (simple object: no nested braces) and then
`r'\x7b.*?\x7d'` (lazy, with `re.DOTALL`) — collecting the matches of each
with `re.findall`, and returns the first candidate that `json.loads`
accepts. The two `findall` runs are modelled directly: non-overlapping
matches, scanning left to right, the attempt position advancing by one
character when no match starts at it. -/

/-- `re.findall(r'\x7b[^\x7b\x7d]*\x7d', text)`: a match is a `\x7b`, a
maximal run of non-brace characters, then a `\x7d` (the character class
excludes both braces, so greediness cannot backtrack past an inner
brace). -/
def findallSimpleObj : Nat → List Char → List String
  | 0, _ => []
  | _ + 1, [] => []
  | f + 1, c :: cs =>
    if c = lbrace then
      let q := List.span (fun x => x ≠ lbrace && x ≠ rbrace) cs
      match q.2 with
      | r :: rest2 =>
        if r = rbrace then
          String.mk (lbrace :: (q.1 ++ [rbrace])) :: findallSimpleObj f rest2
        else findallSimpleObj f cs
      | [] => findallSimpleObj f cs
    else findallSimpleObj f cs

/-- `re.findall(r'\x7b.*?\x7d', text, re.DOTALL)`: a match is a `\x7b`
followed lazily by anything up to the nearest `\x7d`. -/
def findallLazyObj : Nat → List Char → List String
  | 0, _ => []
  | _ + 1, [] => []
  | f + 1, c :: cs =>
    if c = lbrace then
      let q := List.span (fun x => x ≠ rbrace) cs
      match q.2 with
      | _ :: rest2 =>
        String.mk (lbrace :: (q.1 ++ [rbrace])) :: findallLazyObj f rest2
      | [] => findallLazyObj f cs
    else findallLazyObj f cs

/-- The candidate substrings in attempt order: every match of the simple
pattern, then every match of the lazy pattern. -/
def jsonCandidates (text : String) : List String :=
  findallSimpleObj (text.length + 1) text.data ++
    findallLazyObj (text.length + 1) text.data

/-- First candidate accepted by `json.loads`; later candidates are not
tried. -/
def firstParse : List String → Option Json
  | [] => none
  | m :: ms =>
    match json_loads m with
    | .ok v => some v
    | .error _ => firstParse ms

/-- `DataAnalysisAgent._extract_json_from_text`. -/
def extract_json_from_text (text : String) : Option Json :=
  firstParse (jsonCandidates text)

/-! ## Dataset model (`pandas.DataFrame`, restricted)

Row-oriented model of the DataFrames this program handles: a schema of
named, typed columns and a list of rows. The dtypes modelled are `int64`
and `object` (textual/categorical); float dtypes only affect the
display-only `describe()` statistics line of the summary, which is outside
the embedding (see `columnInfoLines`). The default `RangeIndex` is
implicit: row `i` carries index `i`, which slicing (`head`/`iloc`/`tail`)
preserves. The source iterates `df.columns` and indexes `df[col]` by name;
column names are assumed unique (pandas mangles duplicate CSV headers on
ingest), so that equals the positional iteration used here. -/

/-- A scalar cell value: an `int64` number, an `object` string, or a null
(`None`). -/
inductive Scalar where
  | int (i : Int) : Scalar
  | s (v : String) : Scalar
  | none_ : Scalar
  deriving Repr, BEq, DecidableEq, Inhabited

/-- Python `str(value)` for a cell, as interpolated into f-strings. -/
def Scalar.toStr : Scalar → String
  | .int i => toString i
  | .s v => v
  | .none_ => "None"

/-- The column dtypes modelled. -/
inductive DType where
  | int64 : DType
  | object : DType
  deriving Repr, BEq, DecidableEq, Inhabited

def DType.toStr : DType → String
  | .int64 => "int64"
  | .object => "object"

structure ColSpec where
  name : String
  dtype : DType
  deriving Repr, BEq, DecidableEq, Inhabited

structure DataFrame where
  schema : List ColSpec
  rows : List (List Scalar)
  deriving Repr, Inhabited

/-- `len(df)`: the row count. -/
def DataFrame.len (df : DataFrame) : Nat := df.rows.length

/-- The values of column `j` (missing cells read as null; well-formed
frames have every row as long as the schema). -/
def DataFrame.colVals (df : DataFrame) (j : Nat) : List Scalar :=
  df.rows.map (fun r => r.getD j Scalar.none_)

/-- The distinct values of a list in order of first appearance
(seen-set accumulator). -/
def uniqueFirst : List Scalar → List Scalar → List Scalar
  | [], _ => []
  | v :: vs, seen =>
    if seen.contains v then uniqueFirst vs seen
    else v :: uniqueFirst vs (v :: seen)

/-- `Series.nunique()`: number of distinct non-null values. -/
def nuniqueVals (vs : List Scalar) : Nat :=
  (uniqueFirst (vs.filter (fun v => v ≠ Scalar.none_)) []).length

def DataFrame.nunique (df : DataFrame) (j : Nat) : Nat :=
  nuniqueVals (df.colVals j)

/-- Python `max(xs, default=dflt)` on naturals. -/
def pyMaxD (xs : List Nat) (dflt : Nat) : Nat :=
  match xs with
  | [] => dflt
  | x :: rest => rest.foldl max x

/-- The positions of the `object`-dtype columns. -/
def DataFrame.objectIdxs (df : DataFrame) : List Nat :=
  (((List.range df.schema.length).zip df.schema).filter
      (fun p => p.2.dtype = DType.object)).map (fun p => p.1)

/-- `max([df[col].nunique() for col in df.columns if df[col].dtype ==
'object'], default=len(df))` from
`DataAnalysisAgent._validate_data_consistency` (line 251). -/
def max_unique_values (df : DataFrame) : Nat :=
  pyMaxD (df.objectIdxs.map (fun j => df.nunique j)) df.len

/-! ## Consistency check (`DataAnalysisAgent._validate_data_consistency`)

The body can raise (`in`, subscripting and `len` on unsuitable values);
`validateBody` models it in `Except`, and `validate_data_consistency`
wraps it in the source's `except Exception: return True` (fail open). -/

/-- The `table` branch, after `table_data = ai_result['table']`. -/
def validateTable (table_data : Json) (df : DataFrame) : Except String Bool :=
  match pyContains "data" table_data with
  | .error e => .error e
  | .ok false => .ok true
  | .ok true =>
    match getItem table_data "data" with
    | .error e => .error e
    | .ok d =>
      match pyLen d with
      | .error e => .error e
      | .ok n => if n > df.len * 2 then .ok false else .ok true

/-- The `bar`/`line` branch, after `chart_data = ai_result[chart_key]`. -/
def validateChart (chart_data : Json) (df : DataFrame) : Except String Bool :=
  match pyContains "data" chart_data with
  | .error e => .error e
  | .ok false => .ok true
  | .ok true =>
    match pyContains "columns" chart_data with
    | .error e => .error e
    | .ok false => .ok true
    | .ok true =>
      match getItem chart_data "data" with
      | .error e => .error e
      | .ok d =>
        match getItem chart_data "columns" with
        | .error e => .error e
        | .ok c =>
          match pyLen d with
          | .error e => .error e
          | .ok ld =>
            match pyLen c with
            | .error e => .error e
            | .ok lc =>
              if ld ≠ lc then .ok false
              else if ld > max_unique_values df * 2 then .ok false
              else .ok true

/-- The `try` body of `_validate_data_consistency` (lines 234–255). -/
def validateBody (ai_result : Json) (df : DataFrame) : Except String Bool :=
  match pyContains "table" ai_result with
  | .error e => .error e
  | .ok true =>
    match getItem ai_result "table" with
    | .error e => .error e
    | .ok table_data => validateTable table_data df
  | .ok false =>
    match pyContains "bar" ai_result with
    | .error e => .error e
    | .ok hasBar =>
      match (if hasBar then .ok true else pyContains "line" ai_result :
          Except String Bool) with
      | .error e => .error e
      | .ok hasChart =>
        if hasChart then
          match getItem ai_result (if hasBar then "bar" else "line") with
          | .error e => .error e
          | .ok chart_data => validateChart chart_data df
        else .ok true

/-- `DataAnalysisAgent._validate_data_consistency`: the body under
`except Exception: return True`. -/
def validate_data_consistency (ai_result : Json) (df : DataFrame) : Bool :=
  match validateBody ai_result df with
  | .ok b => b
  | .error _ => true

/-! ## Dataset summary (`DataAnalysisAgent._generate_complete_data_info`)

The summary is modelled as its list of lines, joined with `"\n"` at the
end, exactly as the source joins `info_parts`. Two display-only pieces are
outside the embedding and omitted where the source would emit them: the
`describe()` statistics line of numeric columns (float formatting), and —
as noted at `valueCounts` — the pandas tie order inside `value_counts()`
is implementation-defined, modelled here as first-appearance order. The
source wraps the whole body in `try/except`; nothing in the modelled body
faults, so the wrapper is the identity here. -/

def nonNullCount (vs : List Scalar) : Nat :=
  (vs.filter (fun v => v ≠ Scalar.none_)).length

def nullCount (vs : List Scalar) : Nat :=
  (vs.filter (fun v => v = Scalar.none_)).length

/-- Stable insert for descending counts: an element goes after strictly
larger counts and before equal or smaller ones. -/
def insertDesc (x : Scalar × Nat) : List (Scalar × Nat) → List (Scalar × Nat)
  | [] => [x]
  | y :: ys => if y.2 > x.2 then y :: insertDesc x ys else x :: y :: ys

def sortByCountDesc : List (Scalar × Nat) → List (Scalar × Nat)
  | [] => []
  | x :: xs => insertDesc x (sortByCountDesc xs)

/-- `Series.value_counts()`: occurrence counts of the distinct non-null
values, in descending count order (ties: first appearance; pandas leaves
the tie order implementation-defined). -/
def valueCounts (vs : List Scalar) : List (Scalar × Nat) :=
  let nn := vs.filter (fun v => v ≠ Scalar.none_)
  sortByCountDesc ((uniqueFirst nn []).map (fun v => (v, nn.count v)))

/-- The per-column block of lines (source lines 145–176): name, dtype,
non-null/null/distinct counts, then the value distribution for `object`
columns (for `int64` columns the source emits a `describe()` statistics
line whose float formatting is outside the embedding). Each block ends
with an empty line. -/
def columnInfoLines (df : DataFrame) : List String :=
  (df.schema.enum).flatMap (fun p =>
    let vs := df.colVals p.1
    let c := p.2
    ["列名：" ++ c.name,
     "  数据类型：" ++ c.dtype.toStr,
     "  非空值：" ++ toString (nonNullCount vs) ++ "个",
     "  空值：" ++ toString (nullCount vs) ++ "个",
     "  唯一值：" ++ toString (nuniqueVals vs) ++ "个"]
    ++ (match c.dtype with
        | .int64 => []
        | .object =>
          "  值分布（前10个）：" ::
            ((valueCounts vs).take 10).map
              (fun q => "    " ++ q.1.toStr ++ ": " ++ toString q.2 ++ "次"))
    ++ [""])

/-- Source lines 137–141: shape header. -/
def basicInfoLines (df : DataFrame) : List String :=
  ["数据集基本信息：",
   "总行数：" ++ toString df.len,
   "总列数：" ++ toString df.schema.length,
   "",
   "列信息和详细统计："]

/-- One dumped row, `f"第\x7bidx+1\x7d行：\x7b', '.join(row_data)\x7d"`
with `row_data` the `col=value` pairs over all columns. -/
def rowLine (label : Nat) (schema : List ColSpec) (row : List Scalar) :
    String :=
  "第" ++ toString label ++ "行：" ++
    String.intercalate ", "
      (schema.enum.map
        (fun p => p.2.name ++ "=" ++ (row.getD p.1 Scalar.none_).toStr))

/-- Source lines 178–215: the full dump when `len(df) <= 100`, else the
head-10 / middle-10 / tail-10 sample. `iterrows` labels come from the
default `RangeIndex`, which slicing preserves, hence `rows.enum`. -/
def dataDumpLines (df : DataFrame) : List String :=
  if df.len ≤ 100 then
    "完整数据集：" ::
      df.rows.enum.map (fun p => rowLine (p.1 + 1) df.schema p.2)
  else
    let mid_start := df.len / 2 - 5
    let mid_end := df.len / 2 + 5
    "数据样本（包含前10行、中间10行、后10行）：" ::
    "前10行：" ::
      ((df.rows.enum.take 10).map (fun p => rowLine (p.1 + 1) df.schema p.2))
    ++ (("中间部分（第" ++ toString (mid_start + 1) ++ "-" ++
          toString mid_end ++ "行）：") ::
        (((df.rows.enum.drop mid_start).take (mid_end - mid_start)).map
          (fun p => rowLine (p.1 + 1) df.schema p.2)))
    ++ ("最后10行：" ::
        ((df.rows.enum.drop (df.len - 10)).map
          (fun p => rowLine (p.1 + 1) df.schema p.2)))

def complete_data_info_lines (df : DataFrame) : List String :=
  basicInfoLines df ++ columnInfoLines df ++ dataDumpLines df

/-- `DataAnalysisAgent._generate_complete_data_info`. -/
def generate_complete_data_info (df : DataFrame) : String :=
  String.intercalate "\n" (complete_data_info_lines df)

/-! ## Query orchestration (`DataAnalysisAgent.process_query`)

The language-model collaborator (`self.model.invoke` followed by
`.content`) is the one external call; it is passed in as a function from
the prompt to either a reply string or a raised fault
(`Except String String`). `process_query` itself is a total function into
the discriminated `QueryResult`: the source's top-level
`except Exception` corresponds to the `.error` branch of that call — every
other step of the body is itself total (the summarizer absorbs its faults,
`json.loads` failures are the handled `JSONDecodeError` branch, salvage
extraction and the consistency check never raise). -/

/-- `DataAnalysisAgent.system_prompt` (source lines 24–59), verbatim. -/
def system_prompt : String :=
"你是一位专业的数据分析助手，请根据提供的完整数据集回答用户问题。

重要要求：
1. 必须基于提供的真实数据进行分析，不得自行生成或假设数据
2. 所有统计结果必须来自实际计算，不得估算
3. 如果数据不足以回答问题，请明确说明

根据用户请求类型，请选择以下格式之一进行回答：

**文字回答格式：**
\x7b\"answer\": \"基于数据的准确分析结果\"\x7d

**表格数据格式：**  
\x7b\"table\": \x7b\"columns\": [\"列名1\", \"列名2\", ...], \"data\": [[\"真实值1\", \"真实值2\", ...], [\"真实值1\", \"真实值2\", ...]]\x7d\x7d

**柱状图格式：**
\x7b\"bar\": \x7b\"columns\": [\"类别1\", \"类别2\", ...], \"data\": [真实数值1, 真实数值2, ...]\x7d\x7d

**折线图格式：**
\x7b\"line\": \x7b\"columns\": [\"时间点1\", \"时间点2\", ...], \"data\": [真实数值1, 真实数值2, ...]\x7d\x7d

**饼图格式：**
\x7b\"pie\": \x7b\"labels\": [\"标签1\", \"标签2\", ...], \"values\": [真实数值1, 真实数值2, ...]\x7d\x7d

**散点图格式：**
\x7b\"scatter\": \x7b\"x\": [x值1, x值2, ...], \"y\": [y值1, y值2, ...], \"labels\": [\"点1\", \"点2\", ...]\x7d\x7d

格式要求：
- 所有字符串使用双引号
- 数值不加引号
- 确保JSON格式完整无误
- 数据必须来自真实数据集，不得编造

输出示例：
正确：\x7b\"bar\": \x7b\"columns\": [\"产品A\", \"产品B\"], \"data\": [150, 200]\x7d\x7d
错误：\x7b\"bar\": \x7b\"columns\": [\"产品A\", \"产品B\"], \"data\": [\"150\", \"200\"]\x7d\x7d"

/-- The `full_prompt` f-string of `process_query` (source lines 77–86). -/
def build_full_prompt (df : DataFrame) (user_question : String) : String :=
  "\n" ++ system_prompt ++ "\n\n完整数据集信息：\n" ++
    generate_complete_data_info df ++ "\n\n用户问题：" ++ user_question ++
    "\n\n请基于上述真实数据回答问题，确保所有数值都来自实际计算。严格按照JSON格式输出。\n"

/-- The discriminated outcome dict of `process_query`:
`\x7b"success": True, "data": …, "raw_response": …\x7d` or
`\x7b"success": False, "error": …, "raw_response": …\x7d`. -/
inductive QueryResult where
  | success (data : Json) (raw_response : String) : QueryResult
  | failure (error : String) (raw_response : String) : QueryResult
  deriving Repr, BEq

/-- `DataAnalysisAgent.process_query` (source lines 61–121). The inner
`try/except json.JSONDecodeError` is the `.error` branch of `json_loads`;
`if result and self._validate…` tests the truthiness of the salvaged
object before validating it. -/
def process_query (df : DataFrame) (user_question : String)
    (model : String → Except String String) : QueryResult :=
  match model (build_full_prompt df user_question) with
  | .error e => .failure ("AI处理错误: " ++ e) ""
  | .ok content =>
    let response_text := pyStrip content
    match json_loads response_text with
    | .ok result =>
      if validate_data_consistency result df then
        .success result response_text
      else
        .failure "AI返回的数据与实际数据不一致" response_text
    | .error e =>
      match extract_json_from_text response_text with
      | some result =>
        if result.pyTruthy && validate_data_consistency result df then
          .success result response_text
        else
          .failure ("JSON解析失败或数据不一致: " ++ e) response_text
      | none => .failure ("JSON解析失败或数据不一致: " ++ e) response_text

/-! ## Response rendering (`DataVisualizer.render_response`)

Each `_render_*` helper wraps its body in `try/except`, surfacing
`st.error("…渲染错误：…")` on a fault; `render_response` additionally wraps
the dispatch in its own `try/except` that shows the raw payload. The
Streamlit/Plotly side effects are modelled as the `RenderOut` value they
would draw: constructors carry exactly the data handed to the charting
calls. The display-only summary expanders are absorbed into the chart
constructors except where they can fault (the pie percentage strings
divide by `sum(values)`, see `_render_pie_chart`). -/

inductive RenderOut where
  | warning (msg : String) : RenderOut
  | errorNote (msg : String) : RenderOut
  | info (msg : String) : RenderOut
  | tableView (columns data : Json) : RenderOut
  | barChart (x y : Json) : RenderOut
  | lineChart (x y : Json) : RenderOut
  | pieChart (labels values : Json) : RenderOut
  | scatterChart (x y labels : Json) : RenderOut
  | errorWithDump (msg : String) (payload : Json) : RenderOut
  deriving Repr, BEq

/-- `DataVisualizer._render_text_answer`:
`st.info(f"分析结果: \x7banswer\x7d")`. -/
def render_text_answer (answer : Json) : RenderOut :=
  .info ("分析结果: " ++ answer.pyStr)

/-- `pd.DataFrame(data, columns=columns)` as `_render_table` uses it: a
list of rows, each a list matching the column count (other frame-building
shapes that pandas accepts never reach this call in the modelled flow and
are treated as construction faults). -/
def pdFrameCheck (data columns : Json) : Except String Unit :=
  match data, columns with
  | .arr rows, .arr cols =>
    if rows.all (fun r =>
        match r with
        | .arr cells => cells.length = cols.length
        | _ => false) then
      .ok ()
    else .error "ValueError: columns passed do not match data"
  | _, _ => .error "ValueError: DataFrame constructor not understood"

def renderTableBody (table_data : Json) : Except String RenderOut := do
  let columns ← pyGet table_data "columns" (Json.arr [])
  let data ← pyGet table_data "data" (Json.arr [])
  if !columns.pyTruthy || !data.pyTruthy then
    return .warning "表格数据为空"
  let _ ← pdFrameCheck data columns
  return .tableView columns data

/-- `DataVisualizer._render_table`. -/
def render_table (table_data : Json) : RenderOut :=
  match renderTableBody table_data with
  | .ok r => r
  | .error e => .errorNote ("表格渲染错误：" ++ e)

def renderBarBody (chart_data : Json) : Except String RenderOut := do
  let columns ← pyGet chart_data "columns" (Json.arr [])
  let data ← pyGet chart_data "data" (Json.arr [])
  if !columns.pyTruthy || !data.pyTruthy then
    return .warning "图表数据为空"
  let lc ← pyLen columns
  let ld ← pyLen data
  if lc ≠ ld then
    return .errorNote "列名和数据长度不匹配"
  return .barChart columns data

/-- `DataVisualizer._render_bar_chart`. -/
def render_bar_chart (chart_data : Json) : RenderOut :=
  match renderBarBody chart_data with
  | .ok r => r
  | .error e => .errorNote ("柱状图渲染错误：" ++ e)

def renderLineBody (chart_data : Json) : Except String RenderOut := do
  let columns ← pyGet chart_data "columns" (Json.arr [])
  let data ← pyGet chart_data "data" (Json.arr [])
  if !columns.pyTruthy || !data.pyTruthy then
    return .warning "图表数据为空"
  let lc ← pyLen columns
  let ld ← pyLen data
  if lc ≠ ld then
    return .errorNote "列名和数据长度不匹配"
  return .lineChart columns data

/-- `DataVisualizer._render_line_chart`. -/
def render_line_chart (chart_data : Json) : RenderOut :=
  match renderLineBody chart_data with
  | .ok r => r
  | .error e => .errorNote ("折线图渲染错误：" ++ e)

/-- `sum(values)` in the pie summary expander: ints only, `TypeError`
otherwise. -/
def pySumInts (v : Json) : Except String Int :=
  match v with
  | .arr xs =>
    xs.foldlM
      (fun acc x =>
        match x with
        | .num n => .ok (acc + n)
        | _ => .error "TypeError: unsupported operand type for +")
      (0 : Int)
  | _ => .error "TypeError: value is not iterable"

def renderPieBody (chart_data : Json) : Except String RenderOut := do
  let labels ← pyGet chart_data "labels" (Json.arr [])
  let values ← pyGet chart_data "values" (Json.arr [])
  if !labels.pyTruthy || !values.pyTruthy then
    return .warning "图表数据为空"
  let ll ← pyLen labels
  let lv ← pyLen values
  if ll ≠ lv then
    return .errorNote "标签和数值长度不匹配"
  -- The summary expander computes f-strings v/sum(values)*100; only its
  -- fault behaviour is modelled: TypeError on non-numeric values,
  -- ZeroDivisionError when the values sum to zero (the percentage text
  -- itself is float formatting, outside the embedding).
  let s ← pySumInts values
  if s = 0 then
    throw "ZeroDivisionError: division by zero"
  return .pieChart labels values

/-- `DataVisualizer._render_pie_chart`. -/
def render_pie_chart (chart_data : Json) : RenderOut :=
  match renderPieBody chart_data with
  | .ok r => r
  | .error e => .errorNote ("饼图渲染错误：" ++ e)

/-- The synthesized scatter labels
`[f"点\x7bi+1\x7d" for i in range(len(x_data))]`; `点` is Chinese for
"point", the spec's `point-\x7bi\x7d` scheme. -/
def pointLabel (i : Nat) : String := "点" ++ toString i

def synthLabels (n : Nat) : Json :=
  .arr ((List.range n).map (fun i => .str (pointLabel (i + 1))))

def renderScatterBody (chart_data : Json) : Except String RenderOut := do
  let x_data ← pyGet chart_data "x" (Json.arr [])
  let y_data ← pyGet chart_data "y" (Json.arr [])
  let labels0 ← pyGet chart_data "labels" (Json.arr [])
  if !x_data.pyTruthy || !y_data.pyTruthy then
    return .warning "图表数据为空"
  let lx ← pyLen x_data
  let ly ← pyLen y_data
  if lx ≠ ly then
    return .errorNote "X和Y数据长度不匹配"
  if !labels0.pyTruthy then
    return .scatterChart x_data y_data (synthLabels lx)
  let ll ← pyLen labels0
  if ll ≠ lx then
    return .scatterChart x_data y_data (synthLabels lx)
  return .scatterChart x_data y_data labels0

/-- `DataVisualizer._render_scatter_chart`. -/
def render_scatter_chart (chart_data : Json) : RenderOut :=
  match renderScatterBody chart_data with
  | .ok r => r
  | .error e => .errorNote ("散点图渲染错误：" ++ e)

def renderDispatchBody (response_data : Json) : Except String RenderOut := do
  if ← pyContains "answer" response_data then
    return render_text_answer (← getItem response_data "answer")
  else if ← pyContains "table" response_data then
    return render_table (← getItem response_data "table")
  else if ← pyContains "bar" response_data then
    return render_bar_chart (← getItem response_data "bar")
  else if ← pyContains "line" response_data then
    return render_line_chart (← getItem response_data "line")
  else if ← pyContains "pie" response_data then
    return render_pie_chart (← getItem response_data "pie")
  else if ← pyContains "scatter" response_data then
    return render_scatter_chart (← getItem response_data "scatter")
  else
    return .warning "不支持的响应格式"

/-- `DataVisualizer.render_response` (source lines 22–65): falsy payloads
warn; otherwise dispatch on the first key in the fixed order, with the
outer `try/except` showing the raw payload on a dispatch fault. -/
def render_response (response_data : Json) : RenderOut :=
  if !response_data.pyTruthy then .warning "没有可显示的内容"
  else
    match renderDispatchBody response_data with
    | .ok r => r
    | .error e => .errorWithDump ("可视化渲染错误：" ++ e) response_data

/-! ## Concrete instances used by the verification -/

/-- An empty dataset. -/
def dfEmpty : DataFrame := { schema := [], rows := [] }

/-- A three-row dataset with one textual column (distinct values, so
`max_unique_values` is 3). -/
def dfNames : DataFrame :=
  { schema := [{ name := "name", dtype := DType.object }],
    rows := [[Scalar.s "x"], [Scalar.s "y"], [Scalar.s "z"]] }

/-- A two-row dataset with one numeric column. -/
def dfTwo : DataFrame :=
  { schema := [{ name := "a", dtype := DType.int64 }],
    rows := [[Scalar.int 1], [Scalar.int 2]] }

/-- A 101-row dataset with one numeric column, for the sampled summary. -/
def dfBig : DataFrame :=
  { schema := [{ name := "a", dtype := DType.int64 }],
    rows := (List.range 101).map (fun i => [Scalar.int (Int.ofNat i)]) }

/-- The reply text of the parsing-robustness property (§8 of the spec). -/
def replySalvage : String :=
  "Sure, here you go: \x7b\"answer\": \"total is 42\"\x7d Thanks!"

/-- A reply whose only balanced object is a tagged payload with a nested
object: prose + `\x7b"bar": \x7b…\x7d\x7d`. -/
def replyNested : String :=
  "The chart: \x7b\"bar\": \x7b\"columns\": [\"A\", \"B\"], \"data\": [1, 2]\x7d\x7d done"

/-- A reply carrying both an `answer` tag and a malformed `bar` tag. -/
def replyAnswerBar : String :=
  "\x7b\"answer\": \"ok\", \"bar\": \x7b\"columns\": [\"A\", \"B\"], \"data\": [1]\x7d\x7d"

/-- The value `json.loads` gives for `replyAnswerBar`. -/
def objAnswerBar : Json :=
  .obj [("answer", .str "ok"),
        ("bar", .obj [("columns", .arr [.str "A", .str "B"]),
                      ("data", .arr [.num 1])])]

/-- Does a summary line start with `第`, the marker every dumped row line
starts with (and no schema/statistics line can)? -/
def isRowLabelLine (l : String) : Bool := l.data.head? == some '第'

/-- A ten-row window of dumped rows beginning at 0-based row `start`,
with 1-indexed labels. -/
def c8window (df : DataFrame) (start : Nat) : List String :=
  (List.range 10).map
    (fun k => rowLine (start + k + 1) df.schema (df.rows.getD (start + k) []))

/-! ## Verified claims -/

/-- C1: for every dataset, question and model collaborator,
`process_query` returns a discriminated `QueryResult` — it is a total
function, the source's top-level `except Exception` being the `.error`
branch of the model invocation, the only fallible step of the body — and
whenever the model invocation raises a fault, the result is the
processing-error Failure (message `AI处理错误`, the spec's "processing
error" category, followed by the fault's description) whose attached raw
reply text is empty. -/
theorem c1_processing_error (df : DataFrame) (q : String)
    (model : String → Except String String) :
    ((∃ d r, process_query df q model = QueryResult.success d r) ∨
      (∃ er r, process_query df q model = QueryResult.failure er r))
    ∧ (∀ e, model (build_full_prompt df q) = Except.error e →
        process_query df q model =
          QueryResult.failure ("AI处理错误: " ++ e) "") := by
  constructor
  · cases h : process_query df q model with
    | success d r => exact Or.inl ⟨d, r, rfl⟩
    | failure er r => exact Or.inr ⟨er, r, rfl⟩
  · intro e he
    unfold process_query
    rw [he]

theorem c1_processing_error_witness :
    (fun _ : String => (Except.error "boom" : Except String String))
        (build_full_prompt dfEmpty "q") = Except.error "boom"
    ∧ process_query dfEmpty "q" (fun _ => Except.error "boom") =
        QueryResult.failure ("AI处理错误: " ++ "boom") "" :=
  ⟨rfl,
    (c1_processing_error dfEmpty "q" (fun _ => Except.error "boom")).2
      "boom" rfl⟩

/-- C5: whenever the body of the consistency check raises an internal
fault, `_validate_data_consistency` returns `True` (fail open) instead of
rejecting the reply or propagating the fault. -/
theorem c5_fail_open (r : Json) (df : DataFrame) (e : String)
    (h : validateBody r df = Except.error e) :
    validate_data_consistency r df = true := by
  unfold validate_data_consistency
  rw [h]

theorem c5_fail_open_witness :
    validateBody (Json.num 0) dfEmpty =
        Except.error "TypeError: argument of type is not iterable"
    ∧ validate_data_consistency (Json.num 0) dfEmpty = true :=
  ⟨rfl, c5_fail_open (Json.num 0) dfEmpty _ rfl⟩

/-- C2: on the reply `Sure, here you go: \x7b"answer": "total is 42"\x7d
Thanks!` the direct `json.loads` parse fails, the bracket-scanning salvage
yields exactly the object `\x7b"answer": "total is 42"\x7d`, and
`process_query` returns Success carrying that structure (whatever the
dataset and question). -/
theorem c2_salvage_success (df : DataFrame) (q : String)
    (model : String → Except String String)
    (h : model (build_full_prompt df q) = Except.ok replySalvage) :
    (json_loads replySalvage).toOption = none
    ∧ extract_json_from_text replySalvage =
        some (Json.obj [("answer", Json.str "total is 42")])
    ∧ process_query df q model =
        QueryResult.success (Json.obj [("answer", Json.str "total is 42")])
          replySalvage := by
  refine ⟨rfl, rfl, ?_⟩
  unfold process_query
  rw [h]
  rfl

theorem c2_salvage_success_witness :
    (fun _ : String => (Except.ok replySalvage : Except String String))
        (build_full_prompt dfTwo "total?") = Except.ok replySalvage
    ∧ process_query dfTwo "total?" (fun _ => Except.ok replySalvage) =
        QueryResult.success (Json.obj [("answer", Json.str "total is 42")])
          replySalvage :=
  ⟨rfl,
    (c2_salvage_success dfTwo "total?" (fun _ => Except.ok replySalvage)
        rfl).2.2⟩

/-- C9: the simple brace-free pattern is exhausted before any lazy
nested-brace candidate, so on prose around
`\x7b"bar": \x7b"columns": …, "data": …\x7d\x7d` (direct parse failing)
the salvage returns the inner untagged payload, not the tagged object. -/
theorem c9_salvage_inner_payload :
    (json_loads replyNested).toOption = none
    ∧ extract_json_from_text replyNested =
        some (Json.obj [("columns", Json.arr [Json.str "A", Json.str "B"]),
                        ("data", Json.arr [Json.num 1, Json.num 2])])
    ∧ extract_json_from_text replyNested ≠
        some (Json.obj [("bar",
          Json.obj [("columns", Json.arr [Json.str "A", Json.str "B"]),
                    ("data", Json.arr [Json.num 1, Json.num 2])])]) := by
  refine ⟨rfl, rfl, ?_⟩
  intro h
  rw [show extract_json_from_text replyNested =
      some (Json.obj [("columns", Json.arr [Json.str "A", Json.str "B"]),
                      ("data", Json.arr [Json.num 1, Json.num 2])]) from
    rfl] at h
  simp at h

/-- C10: the consistency check inspects the `bar` payload even though the
reply also carries an `answer` key (which the renderer would dispatch on):
with a `bar` whose `data`/`columns` lengths differ, `process_query`
returns the consistency Failure, while `render_response` on the same
structure renders the `answer`. -/
theorem c10_validator_ignores_dispatch_priority :
    json_loads replyAnswerBar = Except.ok objAnswerBar
    ∧ validate_data_consistency objAnswerBar dfNames = false
    ∧ process_query dfNames "q" (fun _ => Except.ok replyAnswerBar) =
        QueryResult.failure "AI返回的数据与实际数据不一致" replyAnswerBar
    ∧ render_response objAnswerBar =
        RenderOut.info ("分析结果: " ++ "ok") :=
  ⟨rfl, rfl, rfl, rfl⟩

/-- C3: a successfully parsed reply whose `table` payload carries a `data`
list is rejected by the consistency check exactly when that list has more
than `2 × len(df)` rows; at most that many rows always passes. -/
theorem c3_table_bound (df : DataFrame) (fields tfields : List (String × Json))
    (rows : List Json)
    (ht : alookup fields "table" = some (Json.obj tfields))
    (hd : alookup tfields "data" = some (Json.arr rows)) :
    validate_data_consistency (Json.obj fields) df = false ↔
      rows.length > df.len * 2 := by
  unfold validate_data_consistency validateBody validateTable
  simp only [pyContains, getItem, pyLen, ht, hd, Option.isSome_some]
  by_cases h : rows.length > df.len * 2 <;> simp [h]

theorem c3_table_bound_witness :
    validate_data_consistency
        (Json.obj [("table", Json.obj [("data",
          Json.arr [Json.null, Json.null, Json.null, Json.null,
                    Json.null])])]) dfTwo = false ↔
      ([Json.null, Json.null, Json.null, Json.null,
        Json.null] : List Json).length > dfTwo.len * 2 :=
  c3_table_bound dfTwo
    [("table", Json.obj [("data",
      Json.arr [Json.null, Json.null, Json.null, Json.null, Json.null])])]
    [("data", Json.arr [Json.null, Json.null, Json.null, Json.null,
      Json.null])]
    [Json.null, Json.null, Json.null, Json.null, Json.null] rfl rfl

/-- C4: a parsed reply whose `bar` (or, with no `bar` key, `line`) payload
carries both `data` and `columns` lists — and no `table` key, which would
shadow the branch — is rejected by the consistency check exactly when the
lengths differ or `len(data)` exceeds `2 ×` the maximum distinct-value
count over the textual columns (`max_unique_values`, defaulting to the row
count when no textual column exists); otherwise it passes. -/
theorem c4_chart_bound (df : DataFrame) (fields cfields : List (String × Json))
    (d cols : List Json)
    (hnt : alookup fields "table" = none)
    (htag : (alookup fields "bar" = some (Json.obj cfields)) ∨
            (alookup fields "bar" = none ∧
             alookup fields "line" = some (Json.obj cfields)))
    (hd : alookup cfields "data" = some (Json.arr d))
    (hc : alookup cfields "columns" = some (Json.arr cols)) :
    validate_data_consistency (Json.obj fields) df = false ↔
      (d.length ≠ cols.length ∨ d.length > max_unique_values df * 2) := by
  have hbody : validateBody (Json.obj fields) df =
      validateChart (Json.obj cfields) df := by
    rcases htag with hb | ⟨hb, hl⟩
    · unfold validateBody
      simp [pyContains, getItem, hnt, hb]
    · unfold validateBody
      simp [pyContains, getItem, hnt, hb, hl]
  have hchart : validateChart (Json.obj cfields) df =
      (if d.length ≠ cols.length then Except.ok false
       else if d.length > max_unique_values df * 2 then Except.ok false
       else Except.ok true) := by
    unfold validateChart
    simp [pyContains, getItem, pyLen, hd, hc]
  unfold validate_data_consistency
  rw [hbody, hchart]
  split_ifs with h1 h2 <;> simp_all

theorem c4_chart_bound_witness :
    validate_data_consistency
        (Json.obj [("bar", Json.obj
          [("columns", Json.arr [Json.str "A", Json.str "B"]),
           ("data", Json.arr [Json.num 1])])]) dfNames = false ↔
      (([Json.num 1] : List Json).length ≠
          ([Json.str "A", Json.str "B"] : List Json).length ∨
        ([Json.num 1] : List Json).length > max_unique_values dfNames * 2) :=
  c4_chart_bound dfNames
    [("bar", Json.obj
      [("columns", Json.arr [Json.str "A", Json.str "B"]),
       ("data", Json.arr [Json.num 1])])]
    [("columns", Json.arr [Json.str "A", Json.str "B"]),
     ("data", Json.arr [Json.num 1])]
    [Json.num 1] [Json.str "A", Json.str "B"] rfl (Or.inl rfl) rfl rfl

/-- C6: `render_response` honors the first matching tag in the fixed
order `answer`, `table`, `bar`, `line`, `pie`, `scatter`, handing only the
winning tag's payload to the per-tag renderer even when later tag keys are
also present (in particular `answer` beats a simultaneous `table`), and a
truthy payload with none of the six keys yields the unsupported-format
notice `不支持的响应格式`. -/
theorem c6_dispatch_priority (fields : List (String × Json))
    (hne : fields ≠ []) :
    (∀ v, alookup fields "answer" = some v →
      render_response (Json.obj fields) = render_text_answer v)
    ∧ (∀ v, alookup fields "answer" = none →
        alookup fields "table" = some v →
        render_response (Json.obj fields) = render_table v)
    ∧ (∀ v, alookup fields "answer" = none →
        alookup fields "table" = none →
        alookup fields "bar" = some v →
        render_response (Json.obj fields) = render_bar_chart v)
    ∧ (∀ v, alookup fields "answer" = none →
        alookup fields "table" = none →
        alookup fields "bar" = none →
        alookup fields "line" = some v →
        render_response (Json.obj fields) = render_line_chart v)
    ∧ (∀ v, alookup fields "answer" = none →
        alookup fields "table" = none →
        alookup fields "bar" = none →
        alookup fields "line" = none →
        alookup fields "pie" = some v →
        render_response (Json.obj fields) = render_pie_chart v)
    ∧ (∀ v, alookup fields "answer" = none →
        alookup fields "table" = none →
        alookup fields "bar" = none →
        alookup fields "line" = none →
        alookup fields "pie" = none →
        alookup fields "scatter" = some v →
        render_response (Json.obj fields) = render_scatter_chart v)
    ∧ (alookup fields "answer" = none →
        alookup fields "table" = none →
        alookup fields "bar" = none →
        alookup fields "line" = none →
        alookup fields "pie" = none →
        alookup fields "scatter" = none →
        render_response (Json.obj fields) =
          RenderOut.warning "不支持的响应格式") := by
  refine ⟨?_, ?_, ?_, ?_, ?_, ?_, ?_⟩
  · intro v h
    unfold render_response renderDispatchBody
    simp [pyContains, getItem, Json.pyTruthy, hne, h,
      bind, Except.bind, pure, Except.pure, Functor.map, Except.map]
  · intro v h0 h
    unfold render_response renderDispatchBody
    simp [pyContains, getItem, Json.pyTruthy, hne, h0, h,
      bind, Except.bind, pure, Except.pure, Functor.map, Except.map]
  · intro v h0 h1 h
    unfold render_response renderDispatchBody
    simp [pyContains, getItem, Json.pyTruthy, hne, h0, h1, h,
      bind, Except.bind, pure, Except.pure, Functor.map, Except.map]
  · intro v h0 h1 h2 h
    unfold render_response renderDispatchBody
    simp [pyContains, getItem, Json.pyTruthy, hne, h0, h1, h2, h,
      bind, Except.bind, pure, Except.pure, Functor.map, Except.map]
  · intro v h0 h1 h2 h3 h
    unfold render_response renderDispatchBody
    simp [pyContains, getItem, Json.pyTruthy, hne, h0, h1, h2, h3, h,
      bind, Except.bind, pure, Except.pure, Functor.map, Except.map]
  · intro v h0 h1 h2 h3 h4 h
    unfold render_response renderDispatchBody
    simp [pyContains, getItem, Json.pyTruthy, hne, h0, h1, h2, h3, h4, h,
      bind, Except.bind, pure, Except.pure, Functor.map, Except.map]
  · intro h0 h1 h2 h3 h4 h5
    unfold render_response renderDispatchBody
    simp [pyContains, getItem, Json.pyTruthy, hne, h0, h1, h2, h3, h4, h5,
      bind, Except.bind, pure, Except.pure, Functor.map, Except.map]

theorem c6_dispatch_priority_witness :
    render_response (Json.obj [("answer", Json.str "hi"),
      ("table", Json.obj [("columns", Json.arr [Json.str "A"]),
                          ("data", Json.arr [Json.arr [Json.num 1]])])]) =
      render_text_answer (Json.str "hi") :=
  (c6_dispatch_priority _ (by simp)).1 (Json.str "hi") rfl

/-- C7: a scatter payload with non-empty `x` and `y` of equal length whose
`labels` field is absent or is a list of the wrong length renders without
failing, with labels synthesized as `点{i}` for i = 1..len(x) — the
source's `f"点{i+1}"`, `点` being Chinese for "point", i.e. the spec's
`point-{i}` scheme; in particular `x=[1,2,3]`, `y=[4,5,6]` with no labels
gets the three synthesized point labels. -/
theorem c7_scatter_label_default (cfields : List (String × Json))
    (xs ys : List Json)
    (hx : alookup cfields "x" = some (Json.arr xs))
    (hy : alookup cfields "y" = some (Json.arr ys))
    (hne : xs ≠ []) (hlen : xs.length = ys.length)
    (hlab : alookup cfields "labels" = none ∨
      ∃ ls, alookup cfields "labels" = some (Json.arr ls) ∧
        ls.length ≠ xs.length) :
    render_scatter_chart (Json.obj cfields) =
      RenderOut.scatterChart (Json.arr xs) (Json.arr ys)
        (synthLabels xs.length)
    ∧ render_scatter_chart (Json.obj
        [("x", Json.arr [Json.num 1, Json.num 2, Json.num 3]),
         ("y", Json.arr [Json.num 4, Json.num 5, Json.num 6])]) =
      RenderOut.scatterChart
        (Json.arr [Json.num 1, Json.num 2, Json.num 3])
        (Json.arr [Json.num 4, Json.num 5, Json.num 6])
        (Json.arr [Json.str (pointLabel 1), Json.str (pointLabel 2),
                   Json.str (pointLabel 3)]) := by
  refine ⟨?_, rfl⟩
  unfold render_scatter_chart renderScatterBody
  have hxe : xs.isEmpty = false := by
    simpa [List.isEmpty_iff] using hne
  have hyne : ys ≠ [] := by
    intro h
    subst h
    exact hne (List.eq_nil_of_length_eq_zero (by simpa using hlen))
  have hye : ys.isEmpty = false := by
    simpa [List.isEmpty_iff] using hyne
  rcases hlab with hl | ⟨ls, hl, hll⟩
  · simp [pyGet, pyLen, Json.pyTruthy, hx, hy, hl, hne, hlen, hxe, hye,
      bind, Except.bind, pure, Except.pure]
  · have hll2 : ls.length ≠ ys.length := hlen ▸ hll
    rcases eq_or_ne ls [] with rfl | hlsne
    · simp [pyGet, pyLen, Json.pyTruthy, hx, hy, hl, hne, hlen, hxe, hye,
        bind, Except.bind, pure, Except.pure]
    · simp [pyGet, pyLen, Json.pyTruthy, hx, hy, hl, hne, hlen, hxe, hye,
        hll2, hlsne, bind, Except.bind, pure, Except.pure]

theorem c7_scatter_label_default_witness :
    render_scatter_chart (Json.obj
        [("x", Json.arr [Json.num 1, Json.num 2]),
         ("y", Json.arr [Json.num 3, Json.num 4]),
         ("labels", Json.arr [Json.str "only"])]) =
      RenderOut.scatterChart (Json.arr [Json.num 1, Json.num 2])
        (Json.arr [Json.num 3, Json.num 4])
        (synthLabels ([Json.num 1, Json.num 2] : List Json).length) :=
  (c7_scatter_label_default
    [("x", Json.arr [Json.num 1, Json.num 2]),
     ("y", Json.arr [Json.num 3, Json.num 4]),
     ("labels", Json.arr [Json.str "only"])]
    [Json.num 1, Json.num 2] [Json.num 3, Json.num 4]
    rfl rfl (by simp) rfl
    (Or.inr ⟨[Json.str "only"], rfl, by simp⟩)).1

/-! Helper lemmas for the summary-sampling claim. -/

theorem enum_slice_map {α β : Type} (l : List α) (d : α) (g : Nat → α → β)
    (m t : Nat) (h : m + t ≤ l.length) :
    ((l.enum.drop m).take t).map (fun p => g p.1 p.2) =
    (List.range t).map (fun k => g (m + k) (l.getD (m + k) d)) := by
  apply List.ext_getElem?
  intro i
  by_cases hi : i < t
  · have h1 : m + i < l.length := by omega
    rw [List.getElem?_map, List.getElem?_map]
    rw [List.getElem?_take, List.getElem?_drop, List.getElem?_enum]
    rw [List.getElem?_range hi]
    simp [hi, h1, List.getElem?_eq_getElem, List.getD_eq_getElem _ d h1]
  · have hlen1 : (((l.enum.drop m).take t).map
        (fun p => g p.1 p.2)).length ≤ i := by
      simp
      omega
    have hlen2 : ((List.range t).map
        (fun k => g (m + k) (l.getD (m + k) d))).length ≤ i := by
      simp
      omega
    rw [List.getElem?_eq_none hlen1, List.getElem?_eq_none hlen2]

theorem enum_map_eq_range_map {α β : Type} (l : List α) (d : α)
    (g : Nat → α → β) :
    l.enum.map (fun p => g p.1 p.2) =
    (List.range l.length).map (fun k => g k (l.getD k d)) := by
  have h := enum_slice_map l d g 0 l.length (by omega)
  rw [List.drop_zero] at h
  rw [List.take_of_length_le (le_of_eq List.enum_length)] at h
  simpa only [Nat.zero_add] using h

theorem firstChar_append (s t : String) (c : Char)
    (h : s.data.head? = some c) : (s ++ t).data.head? = some c := by
  rw [String.data_append]
  cases hs : s.data with
  | nil => rw [hs] at h; simp at h
  | cons a as => rw [hs] at h; simp at h; simp [h]

theorem notRowLine_of_firstChar (s : String) (c : Char)
    (hc : s.data.head? = some c) (h : (c == '第') = false) :
    ¬isRowLabelLine s = true := by
  unfold isRowLabelLine
  rw [hc]
  simp only [beq_iff_eq, Option.some.injEq]
  intro hh
  rw [hh] at h
  simp at h

theorem isRowLabelLine_rowLine (label : Nat) (schema : List ColSpec)
    (row : List Scalar) :
    isRowLabelLine (rowLine label schema row) = true := by
  have h1 : ("第" : String).data.head? = some '第' := rfl
  have h2 := firstChar_append "第" (toString label) '第' h1
  have h3 := firstChar_append ("第" ++ toString label) "行：" '第' h2
  have h4 := firstChar_append ("第" ++ toString label ++ "行：")
    (String.intercalate ", "
      (schema.enum.map
        (fun p => p.2.name ++ "=" ++ (row.getD p.1 Scalar.none_).toStr)))
    '第' h3
  unfold rowLine isRowLabelLine
  rw [h4]
  decide

theorem countP_basicInfoLines (df : DataFrame) :
    (basicInfoLines df).countP isRowLabelLine = 0 := by
  rw [List.countP_eq_zero]
  intro l hl
  unfold basicInfoLines at hl
  simp only [List.mem_cons, List.not_mem_nil, or_false] at hl
  rcases hl with rfl | rfl | rfl | rfl | rfl
  · decide
  · exact notRowLine_of_firstChar _ '总' (firstChar_append _ _ _ rfl)
      (by decide)
  · exact notRowLine_of_firstChar _ '总' (firstChar_append _ _ _ rfl)
      (by decide)
  · decide
  · decide

theorem countP_columnInfoLines (df : DataFrame) :
    (columnInfoLines df).countP isRowLabelLine = 0 := by
  rw [List.countP_eq_zero]
  intro l hl
  unfold columnInfoLines at hl
  rw [List.mem_flatMap] at hl
  obtain ⟨p, _, hl⟩ := hl
  simp only [List.mem_append, List.mem_cons, List.not_mem_nil, or_false,
    List.mem_singleton] at hl
  rcases hl with ((rfl | rfl | rfl | rfl | rfl) | hmatch) | rfl
  · exact notRowLine_of_firstChar _ '列' (firstChar_append _ _ _ rfl)
      (by decide)
  · exact notRowLine_of_firstChar _ ' ' (firstChar_append _ _ _ rfl)
      (by decide)
  · exact notRowLine_of_firstChar _ ' '
      (firstChar_append _ _ _ (firstChar_append _ _ _ rfl)) (by decide)
  · exact notRowLine_of_firstChar _ ' '
      (firstChar_append _ _ _ (firstChar_append _ _ _ rfl)) (by decide)
  · exact notRowLine_of_firstChar _ ' '
      (firstChar_append _ _ _ (firstChar_append _ _ _ rfl)) (by decide)
  · cases hd : p.2.dtype with
    | int64 =>
      rw [hd] at hmatch
      simp at hmatch
    | object =>
      rw [hd] at hmatch
      simp only [List.mem_cons, List.mem_map] at hmatch
      rcases hmatch with rfl | ⟨q, _, rfl⟩
      · decide
      · exact notRowLine_of_firstChar _ ' '
          (firstChar_append _ _ _ (firstChar_append _ _ _
            (firstChar_append _ _ _ (firstChar_append _ _ _ rfl))))
          (by decide)
  · decide

/-- C8: for a dataset of `n` rows, when `n ≤ 100` the summary contains
exactly one 1-indexed `第i行：col=value,…` line per row (`n` lines marked
`第` in total, and the dump section lists rows 1..n in order), and when
`n > 100` the dump section is exactly three ten-row windows — head (rows
0..9), a structural middle over the half-open slice
`floor(n/2)-5 .. floor(n/2)+5`, and tail (rows n-10..n-1) — again with
1-indexed labels. -/
theorem c8_summary_windows (df : DataFrame) :
    (df.len ≤ 100 →
      (complete_data_info_lines df).countP isRowLabelLine = df.len
      ∧ dataDumpLines df = "完整数据集：" ::
          (List.range df.len).map
            (fun i => rowLine (i + 1) df.schema (df.rows.getD i [])))
    ∧ (100 < df.len →
      dataDumpLines df =
        "数据样本（包含前10行、中间10行、后10行）：" ::
        "前10行：" :: c8window df 0
        ++ (("中间部分（第" ++ toString (df.len / 2 - 5 + 1) ++ "-" ++
              toString (df.len / 2 + 5) ++ "行）：") ::
            c8window df (df.len / 2 - 5))
        ++ ("最后10行：" :: c8window df (df.len - 10))) := by
  constructor
  · intro h100
    have hdump : dataDumpLines df = "完整数据集：" ::
        (List.range df.len).map
          (fun i => rowLine (i + 1) df.schema (df.rows.getD i [])) := by
      unfold dataDumpLines
      rw [if_pos h100]
      congr 1
      exact enum_map_eq_range_map df.rows []
        (fun k r => rowLine (k + 1) df.schema r)
    refine ⟨?_, hdump⟩
    unfold complete_data_info_lines
    rw [List.countP_append, List.countP_append, countP_basicInfoLines,
      countP_columnInfoLines, hdump, List.countP_cons]
    have hhd : isRowLabelLine "完整数据集：" = false := by decide
    have hcnt : ((List.range df.len).map
        (fun i => rowLine (i + 1) df.schema (df.rows.getD i []))).countP
          isRowLabelLine =
        ((List.range df.len).map
          (fun i => rowLine (i + 1) df.schema
            (df.rows.getD i []))).length := by
      rw [List.countP_eq_length]
      intro x hx
      obtain ⟨i, _, rfl⟩ := List.mem_map.mp hx
      simp [isRowLabelLine_rowLine]
    rw [hcnt]
    simp [hhd]
  · intro h100
    have hn : 100 < df.rows.length := h100
    have hw0 : (df.rows.enum.take 10).map
        (fun p => rowLine (p.1 + 1) df.schema p.2) = c8window df 0 := by
      have h := enum_slice_map df.rows []
        (fun k r => rowLine (k + 1) df.schema r) 0 10 (by omega)
      rw [List.drop_zero] at h
      unfold c8window
      simpa only [Nat.zero_add] using h
    have hmid : ((df.rows.enum.drop (df.len / 2 - 5)).take
          ((df.len / 2 + 5) - (df.len / 2 - 5))).map
        (fun p => rowLine (p.1 + 1) df.schema p.2) =
        c8window df (df.len / 2 - 5) := by
      have ht : (df.len / 2 + 5) - (df.len / 2 - 5) = 10 := by
        unfold DataFrame.len
        omega
      rw [ht]
      exact enum_slice_map df.rows []
        (fun k r => rowLine (k + 1) df.schema r) (df.len / 2 - 5) 10
        (by unfold DataFrame.len; omega)
    have hwt : ((df.rows.enum.drop (df.len - 10)).take
          (df.rows.length - (df.len - 10))).map
        (fun p => rowLine (p.1 + 1) df.schema p.2) =
        c8window df (df.len - 10) := by
      have ht : df.rows.length - (df.len - 10) = 10 := by
        unfold DataFrame.len
        omega
      rw [ht]
      exact enum_slice_map df.rows []
        (fun k r => rowLine (k + 1) df.schema r) (df.len - 10) 10
        (by unfold DataFrame.len; omega)
    have htake : df.rows.enum.drop (df.len - 10) =
        (df.rows.enum.drop (df.len - 10)).take
          (df.rows.length - (df.len - 10)) := by
      rw [List.take_of_length_le]
      simp [List.enum_length]
    unfold dataDumpLines
    rw [if_neg (by omega)]
    dsimp only
    rw [hw0, hmid]
    rw [htake, hwt]

theorem c8_summary_windows_witness :
    (dfTwo.len ≤ 100
      ∧ (complete_data_info_lines dfTwo).countP isRowLabelLine = dfTwo.len)
    ∧ (100 < dfBig.len
      ∧ dataDumpLines dfBig =
        "数据样本（包含前10行、中间10行、后10行）：" ::
        "前10行：" :: c8window dfBig 0
        ++ (("中间部分（第" ++ toString (dfBig.len / 2 - 5 + 1) ++ "-" ++
              toString (dfBig.len / 2 + 5) ++ "行）：") ::
            c8window dfBig (dfBig.len / 2 - 5))
        ++ ("最后10行：" :: c8window dfBig (dfBig.len - 10))) :=
  ⟨⟨by decide, ((c8_summary_windows dfTwo).1 (by decide)).1⟩,
   ⟨by decide, (c8_summary_windows dfBig).2 (by decide)⟩⟩
